import Mathlib

/-!
Shallow embedding of the access-scoping logic of the InquirySystem backend
(`src/backend/src/services/inquiryService.ts` and the data-permission
middleware), together with theorems settling the frozen claims about it.

Conventions of the embedding:
* TypeScript `number` ids are `Nat`; nullable columns are `Option _`.
* JavaScript truthiness guards (`if (x)`) on optional parameters are
  modelled by `truthyNat` / `truthyStr` (absent, `0` and `""` are falsy).
* JavaScript strict equality `a === b` between a nullable column and a
  number is `a == some b`; between two nullable values coming from the
  same representation it is `==` on `Option Nat`, except that a value
  known to be `undefined` (not `null`) compares unequal to `null`, which
  is modelled at each site as the source dictates.
* The Prisma database is a `DbState`: a list of inquiry rows, a list of
  user rows and a list of department ids.  Each service method is a
  function from its arguments and a `DbState` to a result
  (`Except AppError _`) paired with the successor `DbState`.
-/

namespace InquirySystem

/-- Whether the first character list is an initial segment of the second. -/
def charsStartWith : List Char → List Char → Bool
  | [], _ => true
  | _ :: _, [] => false
  | p :: ps, c :: cs => p == c && charsStartWith ps cs

/-- Whether `pat` occurs as a contiguous segment of the second list. -/
def charsHaveSub (pat : List Char) : List Char → Bool
  | [] => charsStartWith pat []
  | c :: cs => charsStartWith pat (c :: cs) || charsHaveSub pat cs

/-- Substring test: `s` contains `pat` (Prisma string `contains` filter). -/
def strContains (s pat : String) : Bool :=
  charsHaveSub pat.data s.data

/-- JS truthiness of an optional number (`undefined` and `0` are falsy). -/
def truthyNat : Option Nat → Bool
  | some n => n != 0
  | none => false

/-- JS truthiness of an optional string (`undefined` and `""` are falsy). -/
def truthyStr : Option String → Bool
  | some s => s != ""
  | none => false

/-- An inquiry row (`Inquiry` model): the columns read by the scoping
logic, the list filters and the update paths under verification. -/
structure Inquiry where
  id : Nat
  inquiryNo : String
  title : String
  content : String
  customerName : String
  customerEmail : Option String
  customerCompany : Option String
  status : String
  priority : String
  sourceChannel : String
  customerType : String
  assignedTo : Option Nat
  createdBy : Nat
  departmentId : Option Nat
  createdAt : Nat
  deriving Repr, DecidableEq

/-- A user row: the columns consulted by the access checks. -/
structure UserRow where
  id : Nat
  departmentId : Option Nat
  deriving Repr, DecidableEq

/-- The database state threaded through the service methods. -/
structure DbState where
  inquiries : List Inquiry
  users : List UserRow
  departments : List Nat
  deriving Repr, DecidableEq

/-- `prisma.user.findUnique({where:{id}, select:{departmentId}})`:
`none` when no such user, otherwise `some` of the (nullable) department. -/
def DbState.userDept (db : DbState) (uid : Nat) : Option (Option Nat) :=
  (db.users.find? (fun u => u.id == uid)).map (fun u => u.departmentId)

/-- `prisma.inquiry.findUnique({where:{id}})`. -/
def DbState.findInquiry (db : DbState) (id : Nat) : Option Inquiry :=
  db.inquiries.find? (fun i => i.id == id)

/-- `prisma.user.findUnique({where:{id}})` as an existence test. -/
def DbState.userExists (db : DbState) (uid : Nat) : Bool :=
  db.users.any (fun u => u.id == uid)

/-- `prisma.department.findUnique({where:{id}})` as an existence test. -/
def DbState.deptExists (db : DbState) (d : Nat) : Bool :=
  db.departments.contains d

/-- `AppError` of the backend: a message and an HTTP status code. -/
structure AppError where
  message : String
  statusCode : Nat
  deriving Repr, DecidableEq

/-- `InquiryService.checkInquiryAccess(inquiry, userId, userRole)`
(inquiryService.ts lines 615-636).  The `manager` branch performs its own
`prisma.user.findUnique` lookup of the caller's department, so the whole
check takes the database state as an argument; `inquiry.departmentId ===
user?.departmentId` is false when the user row is missing (`undefined`),
and compares the two nullable columns otherwise (`null === null` holds). -/
def checkInquiryAccess (inquiry : Inquiry) (userId : Nat) (userRole : String)
    (db : DbState) : Bool :=
  if userRole = "admin" then
    true
  else if userRole = "manager" then
    match db.userDept userId with
    | some dept => inquiry.departmentId == dept
    | none => false
  else if userRole = "sales" then
    inquiry.assignedTo == some userId || inquiry.createdBy == userId
  else
    inquiry.assignedTo == some userId

/-- One disjunct of a Prisma `where.OR` list as built by
`getInquiryList`: either a search `contains` condition or a sales
ownership condition. -/
inductive OrCond where
  | titleContains (s : String)
  | contentContains (s : String)
  | customerNameContains (s : String)
  | customerEmailContains (s : String)
  | customerCompanyContains (s : String)
  | inquiryNoContains (s : String)
  | assignedToEq (u : Nat)
  | createdByEq (u : Nat)
  deriving Repr, DecidableEq

/-- Semantics of one `where.OR` disjunct on a row.  `contains` on a
nullable column does not match a `NULL` value. -/
def OrCond.eval (c : OrCond) (i : Inquiry) : Bool :=
  match c with
  | .titleContains s => strContains i.title s
  | .contentContains s => strContains i.content s
  | .customerNameContains s => strContains i.customerName s
  | .customerEmailContains s =>
      match i.customerEmail with
      | some e => strContains e s
      | none => false
  | .customerCompanyContains s =>
      match i.customerCompany with
      | some e => strContains e s
      | none => false
  | .inquiryNoContains s => strContains i.inquiryNo s
  | .assignedToEq u => i.assignedTo == some u
  | .createdByEq u => i.createdBy == u

/-- The `Prisma.InquiryWhereInput` object assembled by `getInquiryList`:
each field is `none` when the corresponding key was never assigned.
Assigning a key replaces any earlier value (a JS object has one slot per
key), which is what lets the role scope clobber earlier filters. -/
structure InquiryWhere where
  orConds : Option (List OrCond) := none
  status : Option String := none
  priority : Option String := none
  assignedTo : Option Nat := none
  departmentId : Option Nat := none
  sourceChannel : Option String := none
  customerType : Option String := none
  createdAtGte : Option Nat := none
  createdAtLte : Option Nat := none
  deriving Repr, DecidableEq

/-- Row semantics of an assembled where-object: the conjunction of all
present conditions, `where.OR` being the disjunction of its entries. -/
def InquiryWhere.matchesRow (w : InquiryWhere) (i : Inquiry) : Bool :=
  (match w.orConds with
   | none => true
   | some cs => cs.any (fun c => c.eval i)) &&
  (match w.status with | none => true | some s => i.status == s) &&
  (match w.priority with | none => true | some s => i.priority == s) &&
  (match w.assignedTo with | none => true | some u => i.assignedTo == some u) &&
  (match w.departmentId with | none => true | some d => i.departmentId == some d) &&
  (match w.sourceChannel with | none => true | some s => i.sourceChannel == s) &&
  (match w.customerType with | none => true | some s => i.customerType == s) &&
  (match w.createdAtGte with | none => true | some t => t ≤ i.createdAt) &&
  (match w.createdAtLte with | none => true | some t => i.createdAt ≤ t)

/-- Caller parameters of `getInquiryList` (`InquiryListParams`).  Dates
are modelled as already-parsed timestamps. -/
structure InquiryListParams where
  page : Nat := 1
  pageSize : Nat := 20
  search : Option String := none
  status : Option String := none
  priority : Option String := none
  assignedTo : Option Nat := none
  departmentId : Option Nat := none
  sourceChannel : Option String := none
  customerType : Option String := none
  startDate : Option Nat := none
  endDate : Option Nat := none
  userId : Option Nat := none
  userRole : Option String := none
  userDepartmentId : Option Nat := none
  deriving Repr, DecidableEq

/-- The six `contains` disjuncts installed in `where.OR` when a search
term is supplied. -/
def searchConds (s : String) : List OrCond :=
  [.titleContains s, .contentContains s, .customerNameContains s,
   .customerEmailContains s, .customerCompanyContains s, .inquiryNoContains s]

/-- The role-based narrowing switch of `getInquiryList` (lines 152-175):
`sales` assigns `where.OR` (replacing any search disjunction), `manager`
assigns `where.departmentId` only when the caller's department id is
truthy, `admin` leaves the object alone, and every other role assigns
`where.assignedTo`. -/
def applyRoleScope (w : InquiryWhere) (userId : Nat) (userRole : String)
    (userDepartmentId : Option Nat) : InquiryWhere :=
  if userRole = "sales" then
    { w with orConds := some [.assignedToEq userId, .createdByEq userId] }
  else if userRole = "manager" then
    if truthyNat userDepartmentId then
      { w with departmentId := userDepartmentId }
    else w
  else if userRole = "admin" then
    w
  else
    { w with assignedTo := some userId }

/-- Assembly of the where-object by `getInquiryList` (lines 120-175), in
source order: search disjunction, equality filters, date range, then the
role scope guarded by `if (userRole && userId)`. -/
def buildWhere (p : InquiryListParams) : InquiryWhere :=
  let w : InquiryWhere := {}
  let w := if truthyStr p.search then
      { w with orConds := some (searchConds (p.search.getD "")) } else w
  let w := if truthyStr p.status then { w with status := p.status } else w
  let w := if truthyStr p.priority then { w with priority := p.priority } else w
  let w := if truthyNat p.assignedTo then { w with assignedTo := p.assignedTo } else w
  let w := if truthyNat p.departmentId then { w with departmentId := p.departmentId } else w
  let w := if truthyStr p.sourceChannel then { w with sourceChannel := p.sourceChannel } else w
  let w := if truthyStr p.customerType then { w with customerType := p.customerType } else w
  let w := if p.startDate.isSome || p.endDate.isSome then
      { w with createdAtGte := p.startDate, createdAtLte := p.endDate } else w
  if truthyStr p.userRole && truthyNat p.userId then
    applyRoleScope w (p.userId.getD 0) (p.userRole.getD "") p.userDepartmentId
  else w

/-- Stable descending sort by `createdAt` (`orderBy: {createdAt: 'desc'}`). -/
def sortByCreatedAtDesc (l : List Inquiry) : List Inquiry :=
  l.foldr (fun i acc =>
    let ⟨before, after⟩ := acc.span (fun j => i.createdAt < j.createdAt)
    before ++ i :: after) []

/-- The rows produced by `getInquiryList`: the database filtered by the
assembled where-object, ordered by creation time descending, then
paginated with `skip = (page-1)*pageSize` and `take = pageSize`. -/
def getInquiryListRows (p : InquiryListParams) (db : DbState) : List Inquiry :=
  (((sortByCreatedAtDesc db.inquiries).filter
      (fun i => (buildWhere p).matchesRow i)).drop ((p.page - 1) * p.pageSize)).take
    p.pageSize

/-- The subject of a scoping decision, as the spec presents it. -/
structure Subject where
  id : Nat
  role : String
  departmentId : Option Nat
  deriving Repr, DecidableEq

/-- The list parameters carrying exactly a subject and no caller filters:
the collection-scope predicate produced for that subject. -/
def scopeParams (S : Subject) : InquiryListParams :=
  { userId := some S.id, userRole := some S.role, userDepartmentId := S.departmentId }

/-- Membership of a row in the collection scope of a subject. -/
def collectionIncludes (S : Subject) (R : Inquiry) : Bool :=
  (buildWhere (scopeParams S)).matchesRow R

/-- `InquiryService.getInquiryById(id, userId, userRole)` (lines 230-298):
returns `null` when the row is missing, and throws 403 only when both
`userId` and `userRole` are truthy and `checkInquiryAccess` denies. -/
def getInquiryById (id : Nat) (userId : Option Nat) (userRole : Option String)
    (db : DbState) : Except AppError (Option Inquiry) :=
  match db.findInquiry id with
  | none => .ok none
  | some inquiry =>
    if truthyNat userId && truthyStr userRole &&
        !checkInquiryAccess inquiry (userId.getD 0) (userRole.getD "") db then
      .error ⟨"无权访问此询盘", 403⟩
    else
      .ok (some inquiry)

/-- The update payload (`UpdateInquiryData`), restricted to the columns
carried by the embedded `Inquiry` row. -/
structure UpdateInquiryData where
  title : Option String := none
  content : Option String := none
  customerName : Option String := none
  customerEmail : Option String := none
  status : Option String := none
  priority : Option String := none
  assignedTo : Option Nat := none
  departmentId : Option Nat := none
  deriving Repr, DecidableEq

/-- The conditional spread in `prisma.inquiry.update`: `title`,
`content`, `customerName`, `priority` and `status` are written when
truthy, `customerEmail`, `assignedTo` and `departmentId` when not
`undefined`. -/
def applyUpdate (d : UpdateInquiryData) (i : Inquiry) : Inquiry :=
  let i := if truthyStr d.title then { i with title := d.title.getD i.title } else i
  let i := if truthyStr d.content then { i with content := d.content.getD i.content } else i
  let i := if truthyStr d.customerName then
      { i with customerName := d.customerName.getD i.customerName } else i
  let i := if d.customerEmail.isSome then { i with customerEmail := d.customerEmail } else i
  let i := if d.assignedTo.isSome then { i with assignedTo := d.assignedTo } else i
  let i := if d.departmentId.isSome then { i with departmentId := d.departmentId } else i
  let i := if truthyStr d.priority then { i with priority := d.priority.getD i.priority } else i
  let i := if truthyStr d.status then { i with status := d.status.getD i.status } else i
  i

/-- Replacement of one inquiry row (`prisma.inquiry.update`). -/
def DbState.setInquiry (db : DbState) (id : Nat) (f : Inquiry → Inquiry) : DbState :=
  { db with inquiries := db.inquiries.map (fun i => if i.id == id then f i else i) }

/-- `InquiryService.updateInquiry(id, data, userId, userRole)` (lines
403-527), in source order: existence check (404), permission check
guarded by `if (userId && userRole)` (403), assignee existence (400),
department existence (400), then the write. -/
def updateInquiry (id : Nat) (data : UpdateInquiryData) (userId : Option Nat)
    (userRole : Option String) (db : DbState) : Except AppError Inquiry × DbState :=
  match db.findInquiry id with
  | none => (.error ⟨"询盘不存在", 404⟩, db)
  | some existing =>
    if truthyNat userId && truthyStr userRole &&
        !checkInquiryAccess existing (userId.getD 0) (userRole.getD "") db then
      (.error ⟨"无权修改此询盘", 403⟩, db)
    else if truthyNat data.assignedTo && !db.userExists (data.assignedTo.getD 0) then
      (.error ⟨"指定的分配人员不存在", 400⟩, db)
    else if truthyNat data.departmentId && !db.deptExists (data.departmentId.getD 0) then
      (.error ⟨"指定的部门不存在", 400⟩, db)
    else
      (.ok (applyUpdate data existing), db.setInquiry id (applyUpdate data))

/-- `InquiryService.deleteInquiry(id, userId, userRole)` (lines 531-555):
existence check (404), permission check guarded by `if (userId &&
userRole)` (403), then the cascade delete. -/
def deleteInquiry (id : Nat) (userId : Option Nat) (userRole : Option String)
    (db : DbState) : Except AppError Unit × DbState :=
  match db.findInquiry id with
  | none => (.error ⟨"询盘不存在", 404⟩, db)
  | some inquiry =>
    if truthyNat userId && truthyStr userRole &&
        !checkInquiryAccess inquiry (userId.getD 0) (userRole.getD "") db then
      (.error ⟨"无权删除此询盘", 403⟩, db)
    else
      (.ok (), { db with inquiries := db.inquiries.filter (fun i => !(i.id == id)) })

/-- The `data` argument of `batchUpdateInquiries` (`data: any`): the two
fields the batch actions read.  A missing field is `undefined`, which
Prisma's `updateMany` treats as "leave the column alone". -/
structure BatchData where
  assignedTo : Option Nat := none
  status : Option String := none
  deriving Repr, DecidableEq

/-- The write phase of `batchUpdateInquiries` (the `switch (action)`):
`assign` and `updateStatus` are `updateMany` over `id IN ids`, `delete`
is `deleteMany`, anything else throws 400. -/
def batchApply (ids : List Nat) (action : String) (data : BatchData)
    (db : DbState) : Except AppError Unit × DbState :=
  if action = "assign" then
    (.ok (), { db with inquiries := db.inquiries.map (fun i =>
        if ids.contains i.id then
          match data.assignedTo with
          | some a => { i with assignedTo := some a }
          | none => i
        else i) })
  else if action = "updateStatus" then
    (.ok (), { db with inquiries := db.inquiries.map (fun i =>
        if ids.contains i.id then
          match data.status with
          | some s => { i with status := s }
          | none => i
        else i) })
  else if action = "delete" then
    (.ok (), { db with inquiries := db.inquiries.filter (fun i => !ids.contains i.id) })
  else
    (.error ⟨"不支持的批量操作", 400⟩, db)

/-- `InquiryService.batchUpdateInquiries(ids, action, data, userId,
userRole)` (lines 560-610), in source order: fetch all rows with `id IN
ids`, partial-existence check (400), per-row permission loop guarded by
`if (userId && userRole)` throwing 403 at the first denied row, then the
batch write. -/
def batchUpdateInquiries (ids : List Nat) (action : String) (data : BatchData)
    (userId : Option Nat) (userRole : Option String) (db : DbState) :
    Except AppError Unit × DbState :=
  let found := db.inquiries.filter (fun i => ids.contains i.id)
  if found.length != ids.length then
    (.error ⟨"部分询盘不存在", 400⟩, db)
  else if truthyNat userId && truthyStr userRole then
    match found.find?
        (fun i => !checkInquiryAccess i (userId.getD 0) (userRole.getD "") db) with
    | some i => (.error ⟨"无权操作询盘: " ++ i.inquiryNo, 403⟩, db)
    | none => batchApply ids action data db
  else
    batchApply ids action data db

/-- The `req.user` object installed by the auth middleware.  Its
`departmentId` is `user.departmentId || undefined`, so a `null` (or `0`)
department in the database becomes `undefined` (`none`). -/
structure AuthUser where
  id : Nat
  role : String
  departmentId : Option Nat
  deriving Repr, DecidableEq

/-- Outcome of an express middleware: pass the request on, or fail it
with an error. -/
inductive MiddlewareOutcome where
  | next
  | fail (e : AppError)
  deriving Repr, DecidableEq

/-- The `checkDataPermission` middleware (auth middleware file, lines
107-155): `admin` passes; for resource type `inquiries` the row is
fetched (404 if missing), a `manager` passes on strict department
equality (`undefined` never equals a column value), a `sales` passes on
assignment or creation, and every other case fails 403; any other
resource type passes. -/
def checkDataPermission (user : AuthUser) (resourceType : String)
    (resourceId : Nat) (db : DbState) : MiddlewareOutcome :=
  if user.role = "admin" then
    .next
  else if resourceType = "inquiries" then
    match db.findInquiry resourceId with
    | none => .fail ⟨"询盘不存在", 404⟩
    | some inquiry =>
      if user.role = "manager" &&
          (match user.departmentId with
           | some d => inquiry.departmentId == some d
           | none => false) then
        .next
      else if user.role = "sales" &&
          (inquiry.assignedTo == some user.id || inquiry.createdBy == user.id) then
        .next
      else
        .fail ⟨"无权访问此资源", 403⟩
  else
    .next

/-! ## Helper lemmas -/

/-- With no caller filters, the where-object produced for a subject with
truthy id and role is exactly the role scope applied to the empty
object. -/
theorem buildWhere_scopeParams (S : Subject) (hid : S.id ≠ 0) (hrole : S.role ≠ "") :
    buildWhere (scopeParams S) = applyRoleScope {} S.id S.role S.departmentId := by
  simp [buildWhere, scopeParams, truthyStr, truthyNat, hid, hrole]

/-- Closed form of the collection-scope membership test for a subject
with truthy id and role. -/
theorem collectionIncludes_eq (S : Subject) (R : Inquiry)
    (hid : S.id ≠ 0) (hrole : S.role ≠ "") :
    collectionIncludes S R =
      (if S.role = "sales" then
        R.assignedTo == some S.id || R.createdBy == S.id
      else if S.role = "manager" then
        (match S.departmentId with
         | some d => if d ≠ 0 then R.departmentId == some d else true
         | none => true)
      else if S.role = "admin" then true
      else R.assignedTo == some S.id) := by
  rw [collectionIncludes, buildWhere_scopeParams S hid hrole]
  by_cases hs : S.role = "sales"
  · simp [applyRoleScope, InquiryWhere.matchesRow, OrCond.eval, hs]
  · by_cases hm : S.role = "manager"
    · match hd : S.departmentId with
      | some d =>
        by_cases hd0 : d = 0
        · simp [applyRoleScope, InquiryWhere.matchesRow, truthyNat, hs, hm, hd, hd0]
        · simp [applyRoleScope, InquiryWhere.matchesRow, truthyNat, hs, hm, hd, hd0]
      | none =>
        simp [applyRoleScope, InquiryWhere.matchesRow, truthyNat, hs, hm, hd]
    · by_cases ha : S.role = "admin"
      · simp [applyRoleScope, InquiryWhere.matchesRow, hs, hm, ha]
      · simp [applyRoleScope, InquiryWhere.matchesRow, hs, hm, ha]

/-! ## C1: collection scoping vs point decision -/

/-- Claim C1, counterexample.  For the manager subject `{id 7, departmentId
null}` (whose user row in the database also has a null department, so the
point decision's own lookup agrees with the subject), the resource with
`departmentId 5` is included by the collection scope produced by
`getInquiryList` — the manager branch adds no filter when
`userDepartmentId` is falsy — yet `checkInquiryAccess` denies it. -/
theorem C1_scope_point_divergence_cex :
    collectionIncludes ⟨7, "manager", none⟩
      ⟨1, "N1", "t", "c", "n", none, none, "s", "p", "w", "i", some 2, 2, some 5, 0⟩ = true
    ∧ checkInquiryAccess
      ⟨1, "N1", "t", "c", "n", none, none, "s", "p", "w", "i", some 2, 2, some 5, 0⟩
      7 "manager" ⟨[], [⟨7, none⟩], []⟩ = false
    ∧ DbState.userDept ⟨[], [⟨7, none⟩], []⟩ 7 = some none := by
  refine ⟨by decide, by decide, by decide⟩

/-- Claim C1 (amended): collection scoping and point decisions agree for
every subject with truthy id and role whose database user row carries the
subject's department, except that a manager must have a non-null (and
non-zero) department — for a department-less manager the collection scope
includes everything while the point decision does not. -/
theorem C1_scope_point_agree (S : Subject) (R : Inquiry) (db : DbState)
    (hid : S.id ≠ 0) (hrole : S.role ≠ "")
    (hdb : db.userDept S.id = some S.departmentId)
    (hmgr : S.role = "manager" → ∃ d, S.departmentId = some d ∧ d ≠ 0) :
    collectionIncludes S R = true ↔ checkInquiryAccess R S.id S.role db = true := by
  rw [collectionIncludes_eq S R hid hrole]
  by_cases hs : S.role = "sales"
  · have ha : S.role ≠ "admin" := by rw [hs]; decide
    have hm : S.role ≠ "manager" := by rw [hs]; decide
    simp [checkInquiryAccess, hs, ha, hm]
  · by_cases hm : S.role = "manager"
    · obtain ⟨d, hd, hd0⟩ := hmgr hm
      have ha : S.role ≠ "admin" := by rw [hm]; decide
      rw [hd] at hdb
      simp [checkInquiryAccess, hs, hm, ha, hd, hd0, hdb]
    · by_cases ha : S.role = "admin"
      · simp [checkInquiryAccess, hs, hm, ha]
      · simp [checkInquiryAccess, hs, hm, ha]

/-- Claim C1, witness: the amended agreement evaluated for a sales
subject on a resource it created. -/
theorem C1_scope_point_agree_witness :
    collectionIncludes ⟨9, "sales", none⟩
      ⟨5, "N5", "t", "c", "n", none, none, "s", "p", "w", "i", none, 9, none, 0⟩ = true ↔
    checkInquiryAccess ⟨5, "N5", "t", "c", "n", none, none, "s", "p", "w", "i", none, 9, none, 0⟩
      9 "sales" ⟨[], [⟨9, none⟩], []⟩ = true :=
  C1_scope_point_agree ⟨9, "sales", none⟩
    ⟨5, "N5", "t", "c", "n", none, none, "s", "p", "w", "i", none, 9, none, 0⟩
    ⟨[], [⟨9, none⟩], []⟩ (by decide) (by decide) (by decide)
    (fun h => absurd h (by decide))

/-! ## C2: the role scope does not always narrow -/

/-- Claim C2 evaluated at the failing input.  With a search term
supplied, a sales subject's role scope assigns `where.OR` and thereby
replaces the six search disjuncts: the row titled `"bar"` matches no
field of the search `"foo"` (second conjunct) yet is returned by
`getInquiryList` for the sales caller (first and third conjuncts), so
the scoped result set is not a subset of the rows matching the caller's
filters. -/
theorem C2_sales_scope_clobbers_search :
    (buildWhere { search := some "foo", userId := some 9, userRole := some "sales" }).matchesRow
      ⟨3, "N3", "bar", "bar", "bar", none, none, "s", "p", "w", "i", some 9, 1, none, 0⟩ = true
    ∧ (buildWhere { search := some "foo" }).matchesRow
      ⟨3, "N3", "bar", "bar", "bar", none, none, "s", "p", "w", "i", some 9, 1, none, 0⟩ = false
    ∧ getInquiryListRows { search := some "foo", userId := some 9, userRole := some "sales" }
      ⟨[⟨3, "N3", "bar", "bar", "bar", none, none, "s", "p", "w", "i", some 9, 1, none, 0⟩], [], []⟩
      = [⟨3, "N3", "bar", "bar", "bar", none, none, "s", "p", "w", "i", some 9, 1, none, 0⟩] := by
  refine ⟨by decide, by decide, by decide⟩

/-! ## C3: subjects without a department -/

/-- Claim C3, counterexample.  A manager subject with a null
`departmentId` receives no collection filter at all, so the collection
scope includes a resource of department 5 that is neither assigned to
nor created by the subject; moreover the point decision allows that
subject an unowned resource whose `departmentId` is null
(`null === null`). -/
theorem C3_null_dept_sees_unowned_cex :
    collectionIncludes ⟨7, "manager", none⟩
      ⟨1, "N1", "t", "c", "n", none, none, "s", "p", "w", "i", some 2, 2, some 5, 0⟩ = true
    ∧ (⟨1, "N1", "t", "c", "n", none, none, "s", "p", "w", "i", some 2, 2, some 5, 0⟩ :
        Inquiry).assignedTo ≠ some 7
    ∧ (⟨1, "N1", "t", "c", "n", none, none, "s", "p", "w", "i", some 2, 2, some 5, 0⟩ :
        Inquiry).createdBy ≠ 7
    ∧ checkInquiryAccess
      ⟨2, "N2", "t", "c", "n", none, none, "s", "p", "w", "i", some 2, 2, none, 0⟩
      7 "manager" ⟨[], [⟨7, none⟩], []⟩ = true := by
  refine ⟨by decide, by decide, by decide, by decide⟩

/-- Claim C3 (amended): a subject with a null department and a role other
than `admin` and `manager` sees, by collection scoping or by point
decision, only resources assigned to or created by itself; a manager
with a null department is the exception — its collection scope includes
every resource, and its point decision (when its user row carries the
null department) allows exactly the resources whose `departmentId` is
null. -/
theorem C3_no_dept_owned_only :
    (∀ (S : Subject) (R : Inquiry) (db : DbState),
      S.departmentId = none → S.id ≠ 0 → S.role ≠ "" →
      S.role ≠ "admin" → S.role ≠ "manager" →
      (collectionIncludes S R = true ∨ checkInquiryAccess R S.id S.role db = true) →
      R.assignedTo = some S.id ∨ R.createdBy = S.id)
    ∧ (∀ (uid : Nat) (R : Inquiry) (db : DbState), uid ≠ 0 →
      collectionIncludes ⟨uid, "manager", none⟩ R = true
      ∧ (db.userDept uid = some none →
        (checkInquiryAccess R uid "manager" db = true ↔ R.departmentId = none))) := by
  constructor
  · intro S R db hdept hid hrole hadmin hmgr h
    rcases h with h | h
    · rw [collectionIncludes_eq S R hid hrole] at h
      by_cases hs : S.role = "sales"
      · simp [hs] at h
        exact h
      · simp [hs, hmgr, hadmin] at h
        exact Or.inl h
    · unfold checkInquiryAccess at h
      by_cases hs : S.role = "sales"
      · simp [hadmin, hmgr, hs] at h
        exact h
      · simp [hadmin, hmgr, hs] at h
        exact Or.inl h
  · intro uid R db hid
    have hrole : ("manager" : String) ≠ "" := by decide
    have hs : ("manager" : String) ≠ "sales" := by decide
    have ha : ("manager" : String) ≠ "admin" := by decide
    constructor
    · rw [collectionIncludes_eq ⟨uid, "manager", none⟩ R hid hrole]
      simp [hs]
    · intro hdb
      unfold checkInquiryAccess
      rw [if_neg ha, if_pos rfl, hdb]
      simp

/-- Claim C3, witness: a customer-service subject with no department that
reaches a resource through the collection scope owns it by assignment. -/
theorem C3_no_dept_owned_only_witness :
    (⟨4, "N4", "t", "c", "n", none, none, "s", "p", "w", "i", some 9, 2, some 5, 0⟩ :
      Inquiry).assignedTo = some 9
    ∨ (⟨4, "N4", "t", "c", "n", none, none, "s", "p", "w", "i", some 9, 2, some 5, 0⟩ :
      Inquiry).createdBy = 9 :=
  C3_no_dept_owned_only.1 ⟨9, "customer_service", none⟩
    ⟨4, "N4", "t", "c", "n", none, none, "s", "p", "w", "i", some 9, 2, some 5, 0⟩
    ⟨[], [], []⟩ rfl (by decide) (by decide) (by decide) (by decide)
    (Or.inl (by decide))

/-! ## C4: unknown-role fail-safe -/

/-- Claim C4, counterexample.  The claim covers the cited
`checkDataPermission` middleware as well, and there a `customer_service`
subject is denied an inquiry even though the inquiry is assigned to it: the
middleware has no `assignedTo` fallback for roles outside
`{admin, manager, sales}`, so point access is not "allowed if and only if
`resource.assignedTo == subject.id`". -/
theorem C4_middleware_denies_assigned_cex :
    checkDataPermission ⟨9, "customer_service", some 1⟩ "inquiries" 5
      ⟨[⟨5, "N5", "t", "c", "n", none, none, "s", "p", "w", "i", some 9, 1, none, 0⟩], [], []⟩
      = .fail ⟨"无权访问此资源", 403⟩
    ∧ (⟨5, "N5", "t", "c", "n", none, none, "s", "p", "w", "i", some 9, 1, none, 0⟩ :
        Inquiry).assignedTo = some 9 := by
  refine ⟨by decide, by decide⟩

/-- Claim C4 (amended): for every role outside `{admin, manager, sales}`
the service-level decision is exactly as claimed — `checkInquiryAccess`
returns allow iff `resource.assignedTo == subject.id`, and the collection
scope includes exactly the resources assigned to the subject — and neither
path throws; the `checkDataPermission` middleware, however, denies such a
role every found inquiry outright, even one assigned to the subject. -/
theorem C4_unknown_role_fail_safe :
    (∀ (R : Inquiry) (uid : Nat) (role : String) (db : DbState),
      role ≠ "admin" → role ≠ "manager" → role ≠ "sales" →
      checkInquiryAccess R uid role db = (R.assignedTo == some uid))
    ∧ (∀ (S : Subject) (R : Inquiry),
      S.id ≠ 0 → S.role ≠ "" → S.role ≠ "admin" → S.role ≠ "manager" → S.role ≠ "sales" →
      (collectionIncludes S R = true ↔ R.assignedTo = some S.id))
    ∧ (∀ (u : AuthUser) (rid : Nat) (db : DbState) (i : Inquiry),
      u.role ≠ "admin" → u.role ≠ "manager" → u.role ≠ "sales" →
      db.findInquiry rid = some i →
      checkDataPermission u "inquiries" rid db = .fail ⟨"无权访问此资源", 403⟩) := by
  refine ⟨?_, ?_, ?_⟩
  · intro R uid role db ha hm hs
    simp [checkInquiryAccess, ha, hm, hs]
  · intro S R hid hrole ha hm hs
    rw [collectionIncludes_eq S R hid hrole]
    simp [hs, hm, ha]
  · intro u rid db i ha hm hs hfind
    simp [checkDataPermission, ha, hm, hs, hfind]

/-- Claim C4, witness: the amended statement evaluated for a
`customer_service` subject, an assigned resource, and the middleware. -/
theorem C4_unknown_role_fail_safe_witness :
    checkInquiryAccess ⟨5, "N5", "t", "c", "n", none, none, "s", "p", "w", "i", some 9, 1, none, 0⟩
      9 "customer_service" ⟨[], [], []⟩
      = ((⟨5, "N5", "t", "c", "n", none, none, "s", "p", "w", "i", some 9, 1, none, 0⟩ :
          Inquiry).assignedTo == some 9) :=
  C4_unknown_role_fail_safe.1
    ⟨5, "N5", "t", "c", "n", none, none, "s", "p", "w", "i", some 9, 1, none, 0⟩
    9 "customer_service" ⟨[], [], []⟩ (by decide) (by decide) (by decide)

/-! ## C5: manager department equality -/

/-- Claim C5, counterexample.  The claim quantifies over every manager
subject, but a manager whose `departmentId` is null receives no
collection filter, so a resource of department 4 (here even one assigned
to the manager) is included although its department differs from the
subject's. -/
theorem C5_null_dept_manager_cex :
    collectionIncludes ⟨7, "manager", none⟩
      ⟨3, "N3", "t", "c", "n", none, none, "s", "p", "w", "i", some 7, 7, some 4, 0⟩ = true
    ∧ (⟨3, "N3", "t", "c", "n", none, none, "s", "p", "w", "i", some 7, 7, some 4, 0⟩ :
        Inquiry).departmentId ≠ (⟨7, "manager", none⟩ : Subject).departmentId := by
  refine ⟨by decide, by decide⟩

/-- Claim C5 (amended): for every manager with a non-null, non-zero
department (and a user row carrying that department), both the collection
scope and the point decision hold exactly on resources of that
department; the concrete scenario of the claim — manager `{id 7,
departmentId 3}` over `R1{departmentId 3}`, `R2{departmentId 4}`,
`R3{departmentId null, assignedTo 7}` — yields `{R1}` only. -/
theorem C5_manager_exact_department :
    (∀ (S : Subject) (R : Inquiry) (db : DbState) (d : Nat),
      S.role = "manager" → S.departmentId = some d → d ≠ 0 → S.id ≠ 0 →
      db.userDept S.id = some (some d) →
      ((collectionIncludes S R = true ↔ R.departmentId = some d)
        ∧ (checkInquiryAccess R S.id "manager" db = true ↔ R.departmentId = some d)))
    ∧ getInquiryListRows (scopeParams ⟨7, "manager", some 3⟩)
      ⟨[⟨1, "N1", "a", "a", "a", none, none, "s", "p", "w", "i", none, 1, some 3, 30⟩,
        ⟨2, "N2", "a", "a", "a", none, none, "s", "p", "w", "i", none, 1, some 4, 20⟩,
        ⟨3, "N3", "a", "a", "a", none, none, "s", "p", "w", "i", some 7, 1, none, 10⟩],
       [⟨7, some 3⟩], [3, 4]⟩
      = [⟨1, "N1", "a", "a", "a", none, none, "s", "p", "w", "i", none, 1, some 3, 30⟩] := by
  constructor
  · intro S R db d hrole hd hd0 hid hdb
    have hrole' : S.role ≠ "" := by rw [hrole]; decide
    constructor
    · rw [collectionIncludes_eq S R hid hrole']
      simp [hrole, hd, hd0]
    · simp [checkInquiryAccess, hdb]
  · decide

/-- Claim C5, witness: the amended equivalences evaluated for the
scenario's manager and resource `R1`. -/
theorem C5_manager_exact_department_witness :
    ((collectionIncludes ⟨7, "manager", some 3⟩
        ⟨1, "N1", "a", "a", "a", none, none, "s", "p", "w", "i", none, 1, some 3, 30⟩ = true
      ↔ (⟨1, "N1", "a", "a", "a", none, none, "s", "p", "w", "i", none, 1, some 3, 30⟩ :
          Inquiry).departmentId = some 3)
    ∧ (checkInquiryAccess
        ⟨1, "N1", "a", "a", "a", none, none, "s", "p", "w", "i", none, 1, some 3, 30⟩
        7 "manager" ⟨[], [⟨7, some 3⟩], []⟩ = true
      ↔ (⟨1, "N1", "a", "a", "a", none, none, "s", "p", "w", "i", none, 1, some 3, 30⟩ :
          Inquiry).departmentId = some 3)) :=
  C5_manager_exact_department.1 ⟨7, "manager", some 3⟩
    ⟨1, "N1", "a", "a", "a", none, none, "s", "p", "w", "i", none, 1, some 3, 30⟩
    ⟨[], [⟨7, some 3⟩], []⟩ 3 rfl rfl (by decide) (by decide) (by decide)

/-! ## C6: sales dual ownership -/

/-- Claim C6: a sales subject point-accesses exactly the resources
assigned to it or created by it, the collection scope includes exactly
those resources, and the claim's two concrete scenarios evaluate to
allow and deny respectively. -/
theorem C6_sales_dual_ownership :
    (∀ (uid : Nat) (R : Inquiry) (db : DbState),
      checkInquiryAccess R uid "sales" db = (R.assignedTo == some uid || R.createdBy == uid))
    ∧ (∀ (S : Subject) (R : Inquiry), S.id ≠ 0 → S.role = "sales" →
      (collectionIncludes S R = true ↔ (R.assignedTo = some S.id ∨ R.createdBy = S.id)))
    ∧ checkInquiryAccess ⟨5, "N5", "t", "c", "n", none, none, "s", "p", "w", "i", none, 9, none, 0⟩
      9 "sales" ⟨[], [], []⟩ = true
    ∧ checkInquiryAccess ⟨6, "N6", "t", "c", "n", none, none, "s", "p", "w", "i", some 2, 2, none, 0⟩
      9 "sales" ⟨[], [], []⟩ = false := by
  refine ⟨?_, ?_, by decide, by decide⟩
  · intro uid R db
    simp [checkInquiryAccess]
  · intro S R hid hrole
    have hrole' : S.role ≠ "" := by rw [hrole]; decide
    rw [collectionIncludes_eq S R hid hrole']
    simp [hrole]

/-- Claim C6, witness: the collection equivalence evaluated for the sales
subject 9 on the creator-fallback resource of the claim. -/
theorem C6_sales_dual_ownership_witness :
    collectionIncludes ⟨9, "sales", none⟩
      ⟨5, "N5", "t", "c", "n", none, none, "s", "p", "w", "i", none, 9, none, 0⟩ = true
    ↔ ((⟨5, "N5", "t", "c", "n", none, none, "s", "p", "w", "i", none, 9, none, 0⟩ :
        Inquiry).assignedTo = some 9
      ∨ (⟨5, "N5", "t", "c", "n", none, none, "s", "p", "w", "i", none, 9, none, 0⟩ :
        Inquiry).createdBy = 9) :=
  C6_sales_dual_ownership.2.1 ⟨9, "sales", none⟩
    ⟨5, "N5", "t", "c", "n", none, none, "s", "p", "w", "i", none, 9, none, 0⟩
    (by decide) rfl

/-! ## C7: admin sees all -/

/-- Claim C7: an admin subject is allowed by `checkInquiryAccess` for
every resource and database state — hence for the read, update and
delete call sites alike — the collection scope for an admin includes
every resource, `getInquiryById` as admin always returns the fetched
row, and the update and delete services never answer 403 to an admin. -/
theorem C7_admin_sees_all :
    (∀ (R : Inquiry) (uid : Nat) (db : DbState), checkInquiryAccess R uid "admin" db = true)
    ∧ (∀ (S : Subject) (R : Inquiry), S.id ≠ 0 → S.role = "admin" →
      collectionIncludes S R = true)
    ∧ (∀ (id uid : Nat) (db : DbState),
      getInquiryById id (some uid) (some "admin") db = .ok (db.findInquiry id))
    ∧ (∀ (id : Nat) (data : UpdateInquiryData) (uid : Nat) (db : DbState) (e : AppError),
      (updateInquiry id data (some uid) (some "admin") db).1 = .error e → e.statusCode ≠ 403)
    ∧ (∀ (id uid : Nat) (db : DbState) (e : AppError),
      (deleteInquiry id (some uid) (some "admin") db).1 = .error e → e.statusCode ≠ 403) := by
  refine ⟨?_, ?_, ?_, ?_, ?_⟩
  · intro R uid db
    simp [checkInquiryAccess]
  · intro S R hid hrole
    have hrole' : S.role ≠ "" := by rw [hrole]; decide
    rw [collectionIncludes_eq S R hid hrole']
    simp [hrole]
  · intro id uid db
    cases hfind : db.findInquiry id with
    | none => simp [getInquiryById, hfind]
    | some i => simp [getInquiryById, hfind, checkInquiryAccess]
  · intro id data uid db e h
    cases hfind : db.findInquiry id with
    | none =>
      simp only [updateInquiry, hfind] at h
      injection h with h'
      rw [← h']
      decide
    | some ex =>
      simp only [updateInquiry, hfind] at h
      split at h
      · rename_i hcond
        simp [checkInquiryAccess] at hcond
      · split at h
        · injection h with h'
          rw [← h']
          decide
        · split at h
          · injection h with h'
            rw [← h']
            decide
          · exact Except.noConfusion h
  · intro id uid db e h
    cases hfind : db.findInquiry id with
    | none =>
      simp only [deleteInquiry, hfind] at h
      injection h with h'
      rw [← h']
      decide
    | some ex =>
      simp only [deleteInquiry, hfind] at h
      split at h
      · rename_i hcond
        simp [checkInquiryAccess] at hcond
      · exact Except.noConfusion h

/-- Claim C7, witness: the admin point decision and update path
evaluated at a concrete resource and database. -/
theorem C7_admin_sees_all_witness :
    collectionIncludes ⟨1, "admin", none⟩
      ⟨2, "N2", "t", "c", "n", none, none, "s", "p", "w", "i", some 9, 9, some 4, 0⟩ = true :=
  C7_admin_sees_all.2.1 ⟨1, "admin", none⟩
    ⟨2, "N2", "t", "c", "n", none, none, "s", "p", "w", "i", some 9, 9, some 4, 0⟩
    (by decide) rfl

/-! ## C8: purity of the point decision -/

/-- Claim C8, counterexample.  Two invocations of `checkInquiryAccess`
with equal `(subject, resource)` arguments return different decisions
when the user table differs, because the manager branch looks the
subject's department up in the database instead of using a passed-in
value: with the resource in department 3, the call allows when user 7's
row says department 3 and denies when it says department 4. -/
theorem C8_point_decision_reads_db_cex :
    checkInquiryAccess ⟨1, "N1", "t", "c", "n", none, none, "s", "p", "w", "i", none, 2, some 3, 0⟩
      7 "manager" ⟨[], [⟨7, some 3⟩], []⟩ = true
    ∧ checkInquiryAccess ⟨1, "N1", "t", "c", "n", none, none, "s", "p", "w", "i", none, 2, some 3, 0⟩
      7 "manager" ⟨[], [⟨7, some 4⟩], []⟩ = false := by
  refine ⟨by decide, by decide⟩

/-- Claim C8 (amended): `checkInquiryAccess` is a deterministic function
of `(subject, resource, user table)`; for every role other than
`manager` it is independent of the database state — a pure function of
the caller-supplied arguments — while for a manager it equals a fresh
database lookup of the subject's `departmentId` compared with the
resource's. -/
theorem C8_pure_in_args_except_manager :
    (∀ (R : Inquiry) (uid : Nat) (role : String) (db1 db2 : DbState),
      role ≠ "manager" →
      checkInquiryAccess R uid role db1 = checkInquiryAccess R uid role db2)
    ∧ (∀ (R : Inquiry) (uid : Nat) (db : DbState),
      checkInquiryAccess R uid "manager" db =
        (match db.userDept uid with
         | some dept => R.departmentId == dept
         | none => false)) := by
  constructor
  · intro R uid role db1 db2 hm
    by_cases ha : role = "admin"
    · simp [checkInquiryAccess, ha]
    · by_cases hs : role = "sales" <;> simp [checkInquiryAccess, ha, hm, hs]
  · intro R uid db
    simp [checkInquiryAccess]

/-- Claim C8, witness: database-independence of the sales decision
evaluated on two concrete database states. -/
theorem C8_pure_in_args_except_manager_witness :
    checkInquiryAccess ⟨1, "N1", "t", "c", "n", none, none, "s", "p", "w", "i", some 9, 2, none, 0⟩
      9 "sales" ⟨[], [⟨9, some 1⟩], []⟩
    = checkInquiryAccess ⟨1, "N1", "t", "c", "n", none, none, "s", "p", "w", "i", some 9, 2, none, 0⟩
      9 "sales" ⟨[], [], []⟩ :=
  C8_pure_in_args_except_manager.1
    ⟨1, "N1", "t", "c", "n", none, none, "s", "p", "w", "i", some 9, 2, none, 0⟩
    9 "sales" ⟨[], [⟨9, some 1⟩], []⟩ ⟨[], [], []⟩ (by decide)

/-! ## C9: denied mutations are atomic -/

/-- The write phase of a batch operation leaves the database unchanged
whenever it reports an error (only the unsupported-action branch does). -/
theorem batchApply_error_eq (ids : List Nat) (action : String) (data : BatchData)
    (db db2 : DbState) (e : AppError)
    (h : batchApply ids action data db = (.error e, db2)) : db2 = db := by
  unfold batchApply at h
  split at h
  · exact absurd (congrArg Prod.fst h) (by simp)
  · split at h
    · exact absurd (congrArg Prod.fst h) (by simp)
    · split at h
      · exact absurd (congrArg Prod.fst h) (by simp)
      · injection h with h1 h2
        exact h2.symm

/-- Claim C9: every error outcome of `updateInquiry`, `deleteInquiry`
and `batchUpdateInquiries` — permission denials (403), missing or
partially missing rows (404/400), reference validation failures and
unsupported batch actions — leaves the database exactly as it was:
every check completes before any write is issued. -/
theorem C9_denied_mutations_atomic :
    (∀ (id : Nat) (data : UpdateInquiryData) (uid : Option Nat) (urole : Option String)
      (db db2 : DbState) (e : AppError),
      updateInquiry id data uid urole db = (.error e, db2) → db2 = db)
    ∧ (∀ (id : Nat) (uid : Option Nat) (urole : Option String) (db db2 : DbState) (e : AppError),
      deleteInquiry id uid urole db = (.error e, db2) → db2 = db)
    ∧ (∀ (ids : List Nat) (action : String) (data : BatchData) (uid : Option Nat)
      (urole : Option String) (db db2 : DbState) (e : AppError),
      batchUpdateInquiries ids action data uid urole db = (.error e, db2) → db2 = db) := by
  refine ⟨?_, ?_, ?_⟩
  · intro id data uid urole db db2 e h
    cases hfind : db.findInquiry id with
    | none =>
      simp only [updateInquiry, hfind] at h
      injection h with h1 h2
      exact h2.symm
    | some ex =>
      simp only [updateInquiry, hfind] at h
      split at h
      · injection h with h1 h2
        exact h2.symm
      · split at h
        · injection h with h1 h2
          exact h2.symm
        · split at h
          · injection h with h1 h2
            exact h2.symm
          · injection h with h1 h2
            exact Except.noConfusion h1
  · intro id uid urole db db2 e h
    cases hfind : db.findInquiry id with
    | none =>
      simp only [deleteInquiry, hfind] at h
      injection h with h1 h2
      exact h2.symm
    | some ex =>
      simp only [deleteInquiry, hfind] at h
      split at h
      · injection h with h1 h2
        exact h2.symm
      · injection h with h1 h2
        exact Except.noConfusion h1
  · intro ids action data uid urole db db2 e h
    simp only [batchUpdateInquiries] at h
    split at h
    · injection h with h1 h2
      exact h2.symm
    · split at h
      · split at h
        · injection h with h1 h2
          exact h2.symm
        · exact batchApply_error_eq ids action data db db2 e h
      · exact batchApply_error_eq ids action data db db2 e h

/-- Claim C9, witness: a sales subject denied (403) an update of an
inquiry it does not own leaves the database unchanged. -/
theorem C9_denied_mutations_atomic_witness :
    (⟨[⟨1, "N1", "t", "c", "n", none, none, "s", "p", "w", "i", some 2, 2, some 3, 0⟩], [], []⟩ :
      DbState)
    = ⟨[⟨1, "N1", "t", "c", "n", none, none, "s", "p", "w", "i", some 2, 2, some 3, 0⟩], [], []⟩ :=
  C9_denied_mutations_atomic.1 1 {} (some 9) (some "sales")
    ⟨[⟨1, "N1", "t", "c", "n", none, none, "s", "p", "w", "i", some 2, 2, some 3, 0⟩], [], []⟩
    ⟨[⟨1, "N1", "t", "c", "n", none, none, "s", "p", "w", "i", some 2, 2, some 3, 0⟩], [], []⟩
    ⟨"无权修改此询盘", 403⟩ (by rfl)

/-! ## C10: the check only runs when both subject fields are supplied -/

/-- Claim C10: when either `userId` or `userRole` is omitted,
`getInquiryById` returns whatever row was found with no 403 possible,
and `updateInquiry` / `deleteInquiry` behave exactly as with no subject
at all — the permission check is bypassed, not failed closed; in
particular the unchecked update still writes (when its reference
validations are not triggered) and the unchecked delete always deletes
an existing row. -/
theorem C10_omitted_subject_bypasses_checks :
    (∀ (id : Nat) (uid : Option Nat) (urole : Option String) (db : DbState),
      uid = none ∨ urole = none →
      getInquiryById id uid urole db = .ok (db.findInquiry id))
    ∧ (∀ (id : Nat) (data : UpdateInquiryData) (uid : Option Nat) (urole : Option String)
      (db : DbState), uid = none ∨ urole = none →
      updateInquiry id data uid urole db = updateInquiry id data none none db)
    ∧ (∀ (id : Nat) (data : UpdateInquiryData) (db : DbState) (i : Inquiry),
      db.findInquiry id = some i → data.assignedTo = none → data.departmentId = none →
      updateInquiry id data none none db
        = (.ok (applyUpdate data i), db.setInquiry id (applyUpdate data)))
    ∧ (∀ (id : Nat) (uid : Option Nat) (urole : Option String) (db : DbState),
      uid = none ∨ urole = none →
      deleteInquiry id uid urole db = deleteInquiry id none none db)
    ∧ (∀ (id : Nat) (db : DbState) (i : Inquiry), db.findInquiry id = some i →
      deleteInquiry id none none db
        = (.ok (), { db with inquiries := db.inquiries.filter (fun j => !(j.id == id)) })) := by
  refine ⟨?_, ?_, ?_, ?_, ?_⟩
  · intro id uid urole db hby
    cases hfind : db.findInquiry id with
    | none => simp [getInquiryById, hfind]
    | some i =>
      rcases hby with h | h <;> subst h <;>
        simp [getInquiryById, hfind, truthyNat, truthyStr]
  · intro id data uid urole db hby
    cases hfind : db.findInquiry id with
    | none => simp [updateInquiry, hfind]
    | some i =>
      rcases hby with h | h <;> subst h <;>
        simp [updateInquiry, hfind, truthyNat, truthyStr]
  · intro id data db i hfind ha hd
    simp [updateInquiry, hfind, truthyNat, ha, hd]
  · intro id uid urole db hby
    cases hfind : db.findInquiry id with
    | none => simp [deleteInquiry, hfind]
    | some i =>
      rcases hby with h | h <;> subst h <;>
        simp [deleteInquiry, hfind, truthyNat, truthyStr]
  · intro id db i hfind
    simp [deleteInquiry, hfind, truthyNat]

/-- Claim C10, witness: with `userId` omitted, fetching an inquiry that a
sales caller would otherwise be denied simply returns the row. -/
theorem C10_omitted_subject_bypasses_checks_witness :
    getInquiryById 1 none (some "sales")
      ⟨[⟨1, "N1", "t", "c", "n", none, none, "s", "p", "w", "i", some 2, 2, some 3, 0⟩], [], []⟩
    = .ok (DbState.findInquiry
      ⟨[⟨1, "N1", "t", "c", "n", none, none, "s", "p", "w", "i", some 2, 2, some 3, 0⟩], [], []⟩ 1) :=
  C10_omitted_subject_bypasses_checks.1 1 none (some "sales")
    ⟨[⟨1, "N1", "t", "c", "n", none, none, "s", "p", "w", "i", some 2, 2, some 3, 0⟩], [], []⟩
    (Or.inl rfl)

end InquirySystem
